import Mathlib

/-!
Verification of the ai-crm scheduling back-end.

This file shallowly embeds the parts of the Python source that the claims
touch: the SQLAlchemy row types (`app/models/*.py`), the AI action handlers
(`app/services/ai_functions.py`), the HTTP appointment endpoints
(`app/routers/appointments.py`), the recurring blocked-time expansion
(`app/routers/blocked_times.py`), the model-service fallback
(`app/services/gemini_service.py`) and the chat pipeline
(`app/routers/ai.py`).

Conventions of the embedding:
* instants are minutes since the Unix epoch, plain `Int` values; `datetime` comparison
  and `timedelta` arithmetic become integer comparison and arithmetic;
* the SQLAlchemy session becomes an explicit `DB` record of row lists;
  `query(...).filter(...).first()` becomes `List.find?`, `db.add` appends,
  `db.commit` is the identity on the already-updated state and
  `db.rollback` returns the state from the start of the handler;
* `uuid4` primary keys are modelled by a fresh-id counter on the store;
* Python exceptions inside a handler (the only sources in the embedded
  code are `datetime.fromisoformat` / `int` parses and NOT NULL inserts)
  are modelled by `Option`-valued parsers routed to the handler's
  `except` branch, so every handler is a total Lean function;
* strings built with `strftime` are reproduced with explicit civil-calendar
  helpers; the md5-derived provider colour is modelled as an uninterpreted
  total function of the name (no claim inspects the colour value).
-/

namespace AiCrm


/-- One day in minutes. -/
def minutesPerDay : Int := 1440

/-- Gregorian leap-year test. -/
def isLeapYear (y : Int) : Bool :=
  y % 4 == 0 && (y % 100 != 0 || y % 400 == 0)

/-- Length of month `m` in year `y` (1-12). -/
def daysInMonth (y m : Int) : Int :=
  if m == 2 then (if isLeapYear y then 29 else 28)
  else if m == 4 || m == 6 || m == 9 || m == 11 then 30
  else 31

/-- Days from the civil epoch 1970-01-01 (Howard Hinnant's algorithm);
used to embed `datetime` values as instants. -/
def daysFromCivil (y m d : Int) : Int :=
  let y' := if m ≤ 2 then y - 1 else y
  let era := (if 0 ≤ y' then y' else y' - 399) / 400
  let yoe := y' - era * 400
  let mp := if 2 < m then m - 3 else m + 9
  let doy := (153 * mp + 2) / 5 + d - 1
  let doe := yoe * 365 + yoe / 4 - yoe / 100 + doy
  era * 146097 + doe - 719468

/-- Civil date (year, month, day) of a day count (inverse of
`daysFromCivil`), used for `strftime`-style formatting. -/
def civilFromDays (z0 : Int) : Int × Int × Int :=
  let z := z0 + 719468
  let era := (if 0 ≤ z then z else z - 146096) / 146097
  let doe := z - era * 146097
  let yoe := (doe - doe / 1460 + doe / 36524 - doe / 146096) / 365
  let y := yoe + era * 400
  let doy := doe - (365 * yoe + yoe / 4 - yoe / 100)
  let mp := (5 * doy + 2) / 153
  let d := doy - (153 * mp + 2) / 5 + 1
  let m := if mp < 10 then mp + 3 else mp - 9
  (if m ≤ 2 then y + 1 else y, m, d)

/-- Int of midnight on a civil date. -/
def dateToInt (y m d : Int) : Int :=
  daysFromCivil y m d * minutesPerDay

/-- Split a character list at every occurrence of the separator
(`str.split(sep)` for a one-character separator). -/
def splitOnChar (sep : Char) : List Char → List (List Char)
  | [] => [[]]
  | c :: rest =>
    match splitOnChar sep rest with
    | [] => if c == sep then [[], []] else [[c]]
    | grp :: grps => if c == sep then [] :: grp :: grps else (c :: grp) :: grps

/-- Value of a decimal digit character. -/
def charDigit? (c : Char) : Option Nat :=
  if '0' ≤ c ∧ c ≤ '9' then some (c.toNat - 48) else none

/-- Parse a non-empty all-digit character list as a natural number
(Python `int` on the strings appearing here; surrounding signs and
whitespace, which never occur in well-formed inputs, are rejected into
the same failure branch). -/
def digitsToNat? (l : List Char) : Option Nat :=
  if l.isEmpty then none
  else l.foldl (fun acc c => acc.bind (fun n => (charDigit? c).map (fun d => n * 10 + d)))
    (some 0)

/-- Parse a `YYYY-MM-DD` string as `datetime.fromisoformat` does for the
date part; `none` models the `ValueError` branch. -/
def parseDate (s : String) : Option (Int × Int × Int) :=
  match splitOnChar (Char.ofNat 45) s.data with
  | [ys, ms, ds] =>
    match digitsToNat? ys, digitsToNat? ms, digitsToNat? ds with
    | some y, some m, some d =>
      if 1 ≤ m ∧ m ≤ 12 ∧ 1 ≤ d ∧ (d : Int) ≤ daysInMonth y m then
        some ((y : Int), (m : Int), (d : Int))
      else none
    | _, _, _ => none
  | _ => none

/-- Parse an `HH:MM` string; `none` models the `ValueError` branch. -/
def parseTime (s : String) : Option (Int × Int) :=
  match splitOnChar (Char.ofNat 58) s.data with
  | [hs, ms] =>
    match digitsToNat? hs, digitsToNat? ms with
    | some h, some mi =>
      if h ≤ 23 ∧ mi ≤ 59 then some ((h : Int), (mi : Int)) else none
    | _, _ => none
  | _ => none

/-- Int of midnight on the day given by a `YYYY-MM-DD` string
(the `datetime.fromisoformat` + `replace(hour=0, ...)` combination). -/
def parseDateMidnight (s : String) : Option Int :=
  (parseDate s).map (fun ymd => dateToInt ymd.1 ymd.2.1 ymd.2.2)

/-- Int of `datetime.fromisoformat(date ++ "T" ++ time ++ ":00")` built
from separate `date` and `HH:MM` arguments, as in the AI create handler;
a missing argument renders as the unparsable text "None". -/
def parseDateTimeArgs (date time : Option String) : Option Int :=
  match date, time with
  | some ds, some ts =>
    match parseDate ds, parseTime ts with
    | some ymd, some hm =>
      some (dateToInt ymd.1 ymd.2.1 ymd.2.2 + hm.1 * 60 + hm.2)
    | _, _ => none
  | _, _ => none

/-- The apostrophe character, used in messages such as
`Client 'X' already exists`. -/
def quoteChar : Char := Char.ofNat 39

/-- One-character string holding an apostrophe. -/
def sq : String := String.singleton quoteChar

/-- Python truthiness of an optional string (both `None` and `""` are
falsy). -/
def pyTruthy : Option String → Bool
  | none => false
  | some s => s ≠ ""

/-- Python `a or b` on optional strings with string truthiness. -/
def pyOr (a b : Option String) : Option String :=
  if pyTruthy a then a else b

/-- Python `a or d` collapsing to a default string. -/
def pyOrD (a : Option String) (d : String) : String :=
  if pyTruthy a then a.getD d else d

/-- Weekday name of an instant (`strftime %A`); day 0 of the epoch was a
Thursday. -/
def weekdayName (t : Int) : String :=
  let w := (t / minutesPerDay + 4) % 7
  if w == 0 then "Sunday"
  else if w == 1 then "Monday"
  else if w == 2 then "Tuesday"
  else if w == 3 then "Wednesday"
  else if w == 4 then "Thursday"
  else if w == 5 then "Friday"
  else "Saturday"

/-- Full month name (`strftime %B`). -/
def monthName (m : Int) : String :=
  if m == 1 then "January" else if m == 2 then "February"
  else if m == 3 then "March" else if m == 4 then "April"
  else if m == 5 then "May" else if m == 6 then "June"
  else if m == 7 then "July" else if m == 8 then "August"
  else if m == 9 then "September" else if m == 10 then "October"
  else if m == 11 then "November" else "December"

/-- Abbreviated month name (`strftime %b`). -/
def monthAbbrev (m : Int) : String := (monthName m).take 3

/-- Abbreviated weekday name (`strftime %a`). -/
def weekdayAbbrev (t : Int) : String := (weekdayName t).take 3

/-- Zero-padded two-digit rendering of a day/hour/minute number. -/
def pad2 (n : Int) : String :=
  if n < 10 then "0" ++ toString n else toString n

/-- Minutes past midnight of an instant. -/
def minuteOfDay (t : Int) : Int := t % minutesPerDay

/-- `strftime %B %d` of an instant. -/
def fmtMonthDay (t : Int) : String :=
  let c := civilFromDays (t / minutesPerDay)
  monthName c.2.1 ++ " " ++ pad2 c.2.2

/-- `strftime %b %d` of an instant. -/
def fmtMonthAbbrevDay (t : Int) : String :=
  let c := civilFromDays (t / minutesPerDay)
  monthAbbrev c.2.1 ++ " " ++ pad2 c.2.2

/-- `strftime %H:%M` of an instant. -/
def fmtHM (t : Int) : String :=
  pad2 (minuteOfDay t / 60) ++ ":" ++ pad2 (minuteOfDay t % 60)

/-- The `%-I:%M %p` 12-hour clock rendering used in booking confirmations. -/
def fmtTime12 (t : Int) : String :=
  let h := minuteOfDay t / 60
  let h12 := if h % 12 == 0 then 12 else h % 12
  toString h12 ++ ":" ++ pad2 (minuteOfDay t % 60) ++
    (if h < 12 then " AM" else " PM")

/-- Row of the `providers` table (`app/models/provider.py`). -/
structure ProviderRow where
  id : String
  name : String
  title : Option String
  specialty : Option String
  email : Option String
  phone : Option String
  color : String
  workingHours : String
  isActive : Bool
deriving Repr, DecidableEq

/-- `Provider.get_display_name`: prepend the title when it is truthy. -/
def ProviderRow.displayName (p : ProviderRow) : String :=
  if pyTruthy p.title then p.title.getD "" ++ " " ++ p.name else p.name

/-- Row of the `clients` table (`app/models/client.py`). -/
structure ClientRow where
  id : String
  name : String
  email : Option String
  phone : Option String
  isActive : Bool
deriving Repr, DecidableEq

/-- Row of the `services` table (`app/models/service.py`); the price is an
exact decimal. -/
structure ServiceRow where
  id : String
  providerId : String
  name : String
  price : ℚ
  durationMinutes : Int
  isActive : Bool
deriving Repr, DecidableEq

/-- Row of the `appointments` table, with exactly the columns
`app/models/appointment.py` maps: the model defines no `service_id` and
no `revenue` column, so SQLAlchemy's declarative constructor rejects
those keyword arguments with a `TypeError` wherever the service or
router code passes them. -/
structure Appt where
  id : String
  providerId : String
  clientId : String
  startTime : Int
  endTime : Int
  title : Option String
  serviceType : Option String
  notes : Option String
  status : String
  color : Option String
deriving Repr, DecidableEq

/-- `AppointmentStatus.CANCELLED.value`. -/
def cancelledStatus : String := "cancelled"

/-- `AppointmentStatus.SCHEDULED.value`, the column default. -/
def scheduledStatus : String := "scheduled"

/-- Row of the `blocked_times` table (`app/models/blocked_time.py`). -/
structure BlockedRow where
  id : String
  providerId : String
  startTime : Int
  endTime : Int
  blockType : Option String
  reason : Option String
  isRecurring : Bool
  recurrencePattern : Option String
  recurrenceEndDate : Option Int
  isActive : Bool
deriving Repr, DecidableEq

/-- Row of the `chats` table (`app/models/chat.py`). -/
structure ChatRow where
  id : String
  title : Option String
  cacheName : Option String
  updatedAt : Option Int
deriving Repr, DecidableEq

/-- Row of the `messages` table, with exactly the columns
`app/models/message.py` maps: there is no `audio_data` and no
`audio_mime_type` column, so the `Message(...)` construction in
`_save_ai_message` always raises a `TypeError` on those keyword
arguments. -/
structure MessageRow where
  id : String
  chatId : String
  content : String
  messageType : String
  modelUsed : Option String
deriving Repr, DecidableEq

/-- The relational store: one list per table, in insertion order
(`db.add` appends), plus a fresh-id counter modelling `uuid4` keys. -/
structure DB where
  providers : List ProviderRow
  clients : List ClientRow
  services : List ServiceRow
  appointments : List Appt
  blockedTimes : List BlockedRow
  chats : List ChatRow
  messages : List MessageRow
  nextId : Nat
deriving Repr, DecidableEq

/-- The store with no rows. -/
def DB.empty : DB := ⟨[], [], [], [], [], [], [], 0⟩

/-- Fresh primary key drawn from the counter. -/
def DB.freshId (db : DB) : String := "row" ++ toString db.nextId

/-- Key-value argument bag of an AI action call (all JSON values the tool
schema declares are strings). -/
abbrev Args := List (String × String)

/-- Python `args.get(k)`: `none` when the key is absent. -/
def Args.get? (a : Args) (k : String) : Option String :=
  (a.find? (fun p => p.1 == k)).map (fun p => p.2)

/-- Python `args.get(k, d)`. -/
def Args.getD (a : Args) (k d : String) : String := (a.get? k).getD d

/-- Uniform result shape of every AI action:
`{success: bool, message?: str, error?: str}`. -/
structure ActionResult where
  success : Bool
  message : Option String := none
  error : Option String := none
deriving Repr, DecidableEq

/-- Failure result carrying only an error string. -/
def failWith (e : String) : ActionResult := { success := false, error := some e }

/-- The `TypeError` text raised by SQLAlchemy's declarative constructor
when `Appointment(...)` is given the unmapped `service_id` keyword (the
first unmapped keyword in both call sites). -/
def apptKwargTypeError : String :=
  sq ++ "service_id" ++ sq ++ " is an invalid keyword argument for Appointment"

/-- The `TypeError` text raised when `Message(...)` is given the unmapped
`audio_data` keyword in `_save_ai_message`. -/
def msgKwargTypeError : String :=
  sq ++ "audio_data" ++ sq ++ " is an invalid keyword argument for Message"

/-- Boolean contiguous-sublist test (used for substring checks). -/
def subListOf (p : List Char) : List Char → Bool
  | [] => p.isEmpty
  | c :: rest => p.isPrefixOf (c :: rest) || subListOf p rest

/-- Boolean substring test. -/
def containsSub (s pat : String) : Bool := subListOf pat.data s.data

/-- ASCII lower-casing of one character (the case folding relevant to
the names stored here). -/
def lowerChar (c : Char) : Char :=
  if 'A' ≤ c ∧ c ≤ 'Z' then Char.ofNat (c.toNat + 32) else c

/-- Case-insensitive substring test embedding the SQL
`name ILIKE '%' || q || '%'` filter. -/
def ilikeContains (pat s : String) : Bool :=
  subListOf (pat.data.map lowerChar) (s.data.map lowerChar)

/-- Sort key order used for `ORDER BY start_time` on appointments. -/
def sortApptsByStart (l : List Appt) : List Appt :=
  l.mergeSort (fun a b => decide (a.startTime ≤ b.startTime))

/-- Sort key order used for `ORDER BY start_time` on blocked times. -/
def sortBlocksByStart (l : List BlockedRow) : List BlockedRow :=
  l.mergeSort (fun a b => decide (a.startTime ≤ b.startTime))

/-- `create_appointment` handler (`ai_functions.py` lines 22-106). -/
def aiCreateAppointment (args : Args) (db : DB) : ActionResult × DB :=
  let providerId := args.get? "provider_id"
  let clientId := args.get? "client_id"
  match db.providers.find? (fun p => some p.id == providerId) with
  | none => (failWith "Provider not found", db)
  | some provider =>
  match db.clients.find? (fun c => some c.id == clientId) with
  | none => (failWith "Client not found", db)
  | some client =>
  match parseDateTimeArgs (args.get? "date") (args.get? "start_time"),
        parseDateTimeArgs (args.get? "date") (args.get? "end_time") with
  | some startDt, some endDt =>
    match db.blockedTimes.find? (fun b =>
        some b.providerId == providerId && b.isActive &&
        decide (b.startTime < endDt) && decide (b.endTime > startDt)) with
    | some blocked =>
      let reason := pyOrD (pyOr blocked.reason blocked.blockType) "blocked"
      (failWith (provider.displayName ++ " is unavailable at this time (" ++
        reason ++ ")"), db)
    | none =>
    match db.appointments.find? (fun a =>
        some a.providerId == providerId && a.status != cancelledStatus &&
        decide (a.startTime < endDt) && decide (a.endTime > startDt)) with
    | some _ =>
      (failWith (provider.displayName ++
        " already has an appointment at this time"), db)
    | none =>
      -- After a read-only service lookup, the source constructs
      -- Appointment(provider_id=..., client_id=..., service_id=..., ...)
      -- (lines 80-90). The appointments model maps no service_id (nor
      -- revenue) column, so this constructor call always raises a
      -- TypeError: the except branch rolls back the untouched session and
      -- returns the exception text. The success/insert code below it
      -- (db.add, db.commit, the confirmation message) is unreachable.
      (failWith apptKwargTypeError, db)
  | _, _ =>
    -- datetime.fromisoformat raised; the except branch rolls back and
    -- returns the exception text as the error
    (failWith "Invalid isoformat string", db)

/-- `get_appointments` handler (`ai_functions.py` lines 109-170);
read-only. -/
def aiGetAppointments (args : Args) (db : DB) : ActionResult × DB :=
  let providerId := args.get? "provider_id"
  let clientId := args.get? "client_id"
  let dateArg := args.get? "date"
  let base := db.appointments.filter (fun a => a.status != cancelledStatus)
  let base := if pyTruthy providerId then
      base.filter (fun a => some a.providerId == providerId) else base
  let base := if pyTruthy clientId then
      base.filter (fun a => some a.clientId == clientId) else base
  if pyTruthy dateArg then
    match dateArg.bind parseDateMidnight with
    | none => (failWith "Invalid isoformat string", db)
    | some dayStart =>
      let dayEnd := dayStart + minutesPerDay
      let appts := (sortApptsByStart (base.filter (fun a =>
        decide (dayStart ≤ a.startTime) && decide (a.startTime < dayEnd)))).take 20
      let dateLabel := weekdayName dayStart ++ ", " ++ fmtMonthDay dayStart
      if appts.isEmpty then
        ({ success := true, message := some ("📅 No appointments on " ++ dateLabel) }, db)
      else
        let lines := appts.map (fun a =>
          let timeStr := fmtHM a.startTime ++ "-" ++ fmtHM a.endTime
          let c := db.clients.find? (fun c => c.id == a.clientId)
          let p := db.providers.find? (fun p => p.id == a.providerId)
          "• " ++ timeStr ++ " - " ++ ((c.map (fun c => c.name)).getD "Unknown") ++
            " with " ++ ((p.map ProviderRow.displayName).getD "Unknown"))
        let header := "📅 **" ++ dateLabel ++ "** - " ++ toString appts.length ++
          " appointment(s):\n"
        ({ success := true,
           message := some (String.intercalate "\n" (header :: lines)) }, db)
  else
    let appts := (sortApptsByStart base).take 20
    if appts.isEmpty then
      ({ success := true, message := some "📅 No appointments found" }, db)
    else
      let lines := appts.map (fun a =>
        let timeStr := fmtHM a.startTime ++ "-" ++ fmtHM a.endTime
        let dateStr := weekdayAbbrev a.startTime ++ " " ++ fmtMonthAbbrevDay a.startTime
        let c := db.clients.find? (fun c => c.id == a.clientId)
        let p := db.providers.find? (fun p => p.id == a.providerId)
        "• " ++ dateStr ++ " " ++ timeStr ++ " - " ++
          ((c.map (fun c => c.name)).getD "Unknown") ++
          " with " ++ ((p.map ProviderRow.displayName).getD "Unknown"))
      let header := "📅 Found " ++ toString appts.length ++ " appointment(s):\n"
      ({ success := true,
         message := some (String.intercalate "\n" (header :: lines)) }, db)

/-- Defensive parse of the `"HH:MM-HH:MM"` working-hours column with the
source's fallback to 09:00-17:00 on missing or malformed input. -/
def parseWorkHours (wh : String) : Int × Int :=
  if wh ≠ "" && wh.data.contains (Char.ofNat 45) then
    let parts := splitOnChar (Char.ofNat 45) wh.data
    let h1 := (splitOnChar (Char.ofNat 58) (parts.headD [])).headD []
    let h2 := (splitOnChar (Char.ofNat 58) (parts.getD 1 [])).headD []
    match digitsToNat? h1, digitsToNat? h2 with
    | some a, some b => ((a : Int), (b : Int))
    | _, _ => (9, 17)
  else (9, 17)

/-- Per-day availability summary computed by `check_availability`'s loop
(`ai_functions.py` lines 202-244); `fullyBooked` records which branch the
report line came from. -/
structure DaySummary where
  dayStart : Int
  totalWorkHours : Int
  availableHours : ℚ
  hadEntries : Bool
  fullyBooked : Bool
deriving Repr, DecidableEq

/-- One day of `check_availability`'s loop (`ai_functions.py` lines
202-244): sum busy minutes of appointments and blocked times starting
that day, subtract from the working-hours span. -/
def daySummaryOf (db : DB) (pid : String) (workStart workEnd : Int)
    (day : Int) : DaySummary :=
  let nextDay := day + minutesPerDay
  let appts := db.appointments.filter (fun a =>
    a.providerId == pid && a.status != cancelledStatus &&
    decide (day ≤ a.startTime) && decide (a.startTime < nextDay))
  let blocks := db.blockedTimes.filter (fun b =>
    b.providerId == pid && b.isActive &&
    decide (day ≤ b.startTime) && decide (b.startTime < nextDay))
  let busyAfterAppts : Int :=
    appts.foldl (fun acc a => acc + (a.endTime - a.startTime)) 0
  let busyMinutes : Int :=
    blocks.foldl (fun acc b => acc + (b.endTime - b.startTime)) busyAfterAppts
  let totalWorkHours := workEnd - workStart
  let availableHours : ℚ := (totalWorkHours : ℚ) - (busyMinutes : ℚ) / 60
  { dayStart := day, totalWorkHours := totalWorkHours,
    availableHours := availableHours,
    hadEntries := !appts.isEmpty || !blocks.isEmpty,
    fullyBooked := !(decide (0 < availableHours)) }

/-- The 7-day loop of `check_availability`, one summary per day. -/
def availabilityWeek (db : DB) (pid : String) (workStart workEnd : Int)
    (startDay : Int) : List DaySummary :=
  (List.range 7).map (fun (off : Nat) =>
    daySummaryOf db pid workStart workEnd (startDay + (off : Int) * minutesPerDay))

/-- Render a rational to one decimal place (the `:.1f` format of the
availability report; round-half-even of the float value is approximated by
round-half-up, which agrees on the exact multiples produced here). -/
def fmtRatTenths (q : ℚ) : String :=
  let t : Int := ⌊q * 10 + 1 / 2⌋
  let sign := if t < 0 then "-" else ""
  sign ++ toString (t.natAbs / 10) ++ "." ++ toString (t.natAbs % 10)

/-- Report line for one day of the availability summary. -/
def renderDaySummary (s : DaySummary) : String :=
  let dayName := weekdayName s.dayStart ++ ", " ++ fmtMonthAbbrevDay s.dayStart
  if s.fullyBooked then "• " ++ dayName ++ ": Fully booked"
  else if s.hadEntries then
    "• " ++ dayName ++ ": " ++ fmtRatTenths s.availableHours ++
      "h free (out of " ++ toString s.totalWorkHours ++ "h)"
  else
    "• " ++ dayName ++ ": " ++ fmtRatTenths s.availableHours ++
      "h free (fully available)"

/-- `check_availability` handler (`ai_functions.py` lines 173-257);
read-only. -/
def aiCheckAvailability (args : Args) (db : DB) : ActionResult × DB :=
  let providerId := args.get? "provider_id"
  match db.providers.find? (fun p => some p.id == providerId) with
  | none => (failWith "Provider not found", db)
  | some provider =>
    let wh := parseWorkHours provider.workingHours
    match (args.get? "date").bind parseDateMidnight with
    | none => (failWith "Invalid isoformat string", db)
    | some startDate =>
      let summaries := availabilityWeek db provider.id wh.1 wh.2 startDate
      let weekSummary := summaries.map renderDaySummary
      if weekSummary.isEmpty then
        ({ success := true,
           message := some (provider.displayName ++ " has no available time") }, db)
      else
        let weekStart := fmtMonthAbbrevDay startDate
        let weekEnd := fmtMonthAbbrevDay (startDate + 6 * minutesPerDay)
        ({ success := true,
           message := some ("📅 " ++ provider.displayName ++ " availability (" ++
             weekStart ++ " - " ++ weekEnd ++ "):\n\n" ++
             String.intercalate "\n" weekSummary) }, db)

/-- `cancel_appointment` handler (`ai_functions.py` lines 260-284). -/
def aiCancelAppointment (args : Args) (db : DB) : ActionResult × DB :=
  let apptId := args.get? "appointment_id"
  match db.appointments.find? (fun a => some a.id == apptId) with
  | none => (failWith "Appointment not found", db)
  | some appt =>
    let provider := db.providers.find? (fun p => p.id == appt.providerId)
    let client := db.clients.find? (fun c => c.id == appt.clientId)
    let db' := { db with appointments := db.appointments.map (fun a =>
      if a.id == appt.id then { a with status := cancelledStatus } else a) }
    let timeStr := weekdayName appt.startTime ++ ", " ++ fmtMonthDay appt.startTime ++
      " at " ++ fmtHM appt.startTime
    ({ success := true,
       message := some ("❌ Cancelled appointment: " ++
         ((client.map (fun c => c.name)).getD "Unknown") ++ " with " ++
         ((provider.map ProviderRow.displayName).getD "Unknown") ++ " on " ++ timeStr) },
     db')

/-- `create_client` handler (`ai_functions.py` lines 287-315). The
duplicate-name check does not filter on the active flag. -/
def aiCreateClient (args : Args) (db : DB) : ActionResult × DB :=
  let nameArg := args.get? "name"
  match db.clients.find? (fun c => some c.name == nameArg) with
  | some _ =>
    (failWith ("Client " ++ sq ++ nameArg.getD "None" ++ sq ++ " already exists"), db)
  | none =>
    match nameArg with
    | none =>
      -- inserting NULL into the NOT NULL name column raises; the except
      -- branch rolls back and reports the exception text
      (failWith "NOT NULL constraint failed: clients.name", db)
    | some nm =>
      let row : ClientRow :=
        { id := db.freshId, name := nm, email := some (args.getD "email" ""),
          phone := some (args.getD "phone" ""), isActive := true }
      ({ success := true, message := some ("✅ Created client: " ++ nm) },
       { db with clients := db.clients ++ [row], nextId := db.nextId + 1 })

/-- The courtesy-title tokens of the `create_provider` regex
`^(Dr\.|Prof\.|Mr\.|Ms\.|Mrs\.)\s+`. -/
def titleTokens : List String := ["Dr.", "Prof.", "Mr.", "Ms.", "Mrs."]

/-- Whether `name` matches the courtesy-title regex: one of the tokens at
the start followed by at least one whitespace character. -/
def startsWithTitleToken (name : String) : Bool :=
  titleTokens.any (fun tk =>
    tk.data.isPrefixOf name.data &&
      (match (name.data.drop tk.data.length).head? with
       | some c => c.isWhitespace
       | none => false))

/-- Deterministic display colour derived in source from an md5 hash of the
normalized name; no claim inspects the value, so the hash itself is
modelled as a constant function. -/
def providerColor (_name : String) : String := "#000000"

/-- `create_provider` handler (`ai_functions.py` lines 318-388). -/
def aiCreateProvider (args : Args) (db : DB) : ActionResult × DB :=
  match args.get? "name" with
  | none =>
    -- re.match on None raises TypeError; the except branch reports it
    (failWith "expected string or bytes-like object", db)
  | some nm =>
    let titleArg := args.getD "title" ""
    let specialty := args.getD "specialty" ""
    let email := args.getD "email" ""
    let phone := args.getD "phone" ""
    let workingHours := args.getD "working_hours" "09:00-17:00"
    let hasTok := startsWithTitleToken nm
    let finalName := nm
    let finalTitle : Option String :=
      if hasTok then none
      else some (if titleArg ≠ "" then titleArg else "Provider")
    let titleVar :=
      if hasTok then
        if titleArg = "" then
          if "Dr.".data.isPrefixOf nm.data then "Doctor"
          else if "Prof.".data.isPrefixOf nm.data then "Professor"
          else "Provider"
        else titleArg
      else titleArg
    match db.providers.find? (fun p => p.name == finalName && p.isActive) with
    | some _ =>
      (failWith ("Provider " ++ sq ++ finalName ++ sq ++ " already exists"), db)
    | none =>
      let row : ProviderRow :=
        { id := db.freshId, name := finalName, title := finalTitle,
          specialty := some specialty, email := some email, phone := some phone,
          color := providerColor finalName, workingHours := workingHours,
          isActive := true }
      let specialtyText := if specialty ≠ "" then " - " ++ specialty else ""
      let displayTitle := if titleVar ≠ "" then titleVar else ""
      ({ success := true,
         message := some ("✅ Created provider: " ++ finalName ++ " (" ++
           displayTitle ++ specialtyText ++ ")") },
       { db with providers := db.providers ++ [row], nextId := db.nextId + 1 })

/-- The active clients matching a `search_clients` query, bounded to 10
rows as in source. -/
def searchMatches (queryText : String) (db : DB) : List ClientRow :=
  (db.clients.filter (fun c => c.isActive && ilikeContains queryText c.name)).take 10

/-- `search_clients` handler (`ai_functions.py` lines 391-415);
read-only. The handler reads the argument key "query". -/
def aiSearchClients (args : Args) (db : DB) : ActionResult × DB :=
  let queryText := args.getD "query" ""
  let clients := searchMatches queryText db
  if clients.isEmpty then
    ({ success := true,
       message := some ("No clients found matching " ++ sq ++ queryText ++ sq) }, db)
  else
    let lines := clients.map (fun c =>
      "• " ++ c.name ++ " [ID: " ++ c.id ++ "]" ++
        (if pyTruthy c.phone then " - " ++ c.phone.getD "" else "") ++
        (if pyTruthy c.email then " - " ++ c.email.getD "" else ""))
    let header := "Found " ++ toString clients.length ++ " client(s):\n"
    ({ success := true,
       message := some (String.intercalate "\n" (header :: lines)) }, db)

/-- `get_provider_schedule` handler (`ai_functions.py` lines 418-479);
read-only. -/
def aiGetProviderSchedule (args : Args) (db : DB) : ActionResult × DB :=
  let providerId := args.get? "provider_id"
  match db.providers.find? (fun p => some p.id == providerId) with
  | none => (failWith "Provider not found", db)
  | some provider =>
    match (args.get? "date").bind parseDateMidnight with
    | none => (failWith "Invalid isoformat string", db)
    | some dayStart =>
      let dayEnd := dayStart + minutesPerDay
      let appts := sortApptsByStart (db.appointments.filter (fun a =>
        a.providerId == provider.id && a.status != cancelledStatus &&
        decide (dayStart ≤ a.startTime) && decide (a.startTime < dayEnd)))
      let blocks := sortBlocksByStart (db.blockedTimes.filter (fun b =>
        b.providerId == provider.id && b.isActive &&
        decide (dayStart ≤ b.startTime) && decide (b.startTime < dayEnd)))
      let dayName := weekdayName dayStart ++ ", " ++ fmtMonthDay dayStart
      if appts.isEmpty && blocks.isEmpty then
        ({ success := true,
           message := some ("📅 " ++ provider.displayName ++
             " has no schedule for " ++ dayName) }, db)
      else
        let apptLines :=
          if appts.isEmpty then []
          else "**Appointments:**" :: appts.map (fun a =>
            let c := db.clients.find? (fun c => c.id == a.clientId)
            "• " ++ fmtHM a.startTime ++ "-" ++ fmtHM a.endTime ++ " - " ++
              ((c.map (fun c => c.name)).getD "Unknown"))
        let blockLines :=
          if blocks.isEmpty then []
          else (if appts.isEmpty then [] else [""]) ++
            "**Blocked Times:**" :: blocks.map (fun b =>
              "• " ++ fmtHM b.startTime ++ "-" ++ fmtHM b.endTime ++ " - " ++
                pyOrD (pyOr b.reason b.blockType) "Unavailable")
        let header := "📅 **" ++ provider.displayName ++ "** schedule for " ++
          dayName ++ ":\n"
        ({ success := true,
           message := some (String.intercalate "\n"
             (header :: (apptLines ++ blockLines))) }, db)

/-- The names in the `FUNCTION_HANDLERS` registry. -/
def registeredFunctionNames : List String :=
  ["create_appointment", "get_appointments", "check_availability",
   "cancel_appointment", "create_client", "create_provider",
   "search_clients", "get_provider_schedule"]

/-- `execute_function` (`ai_functions.py` lines 495-502): dictionary
dispatch over the registry, with a structured error for unknown names. -/
def executeFunction (funcName : String) (args : Args) (db : DB) :
    ActionResult × DB :=
  if funcName = "create_appointment" then aiCreateAppointment args db
  else if funcName = "get_appointments" then aiGetAppointments args db
  else if funcName = "check_availability" then aiCheckAvailability args db
  else if funcName = "cancel_appointment" then aiCancelAppointment args db
  else if funcName = "create_client" then aiCreateClient args db
  else if funcName = "create_provider" then aiCreateProvider args db
  else if funcName = "search_clients" then aiSearchClients args db
  else if funcName = "get_provider_schedule" then aiGetProviderSchedule args db
  else (failWith ("Unknown function: " ++ funcName), db)

deriving instance DecidableEq for Except

/-- An `HTTPException` raised by a router. -/
structure HTTPError where
  statusCode : Nat
  detail : String
deriving Repr, DecidableEq

/-- Body of `POST /appointments` (`AppointmentCreate` schema). -/
structure ApptCreatePayload where
  providerId : String
  clientId : String
  serviceId : Option String := none
  startTime : Int
  endTime : Int
  title : Option String := none
  serviceType : Option String := none
  notes : Option String := none
  revenue : Option ℚ := none
  color : Option String := none
deriving Repr, DecidableEq

/-- `create_appointment` endpoint (`routers/appointments.py` lines
103-160): resolves provider, client and optional service and checks only
the appointment-overlap conflict; the final
`Appointment(service_id=..., revenue=..., ...)` construction (lines
143-154) then always raises a TypeError on the unmapped keywords, which
FastAPI surfaces as a 500 response, so the endpoint never inserts a
row. -/
def httpCreateAppointment (data : ApptCreatePayload) (db : DB) :
    Except HTTPError (Appt × DB) :=
  match db.providers.find? (fun p => p.id == data.providerId) with
  | none => Except.error ⟨404, "Provider not found"⟩
  | some provider =>
  match db.clients.find? (fun c => c.id == data.clientId) with
  | none => Except.error ⟨404, "Client not found"⟩
  | some client =>
  let serviceRevenue? : Except HTTPError (Option ℚ) :=
    match data.serviceId with
    | some sid =>
      match db.services.find? (fun s => s.id == sid) with
      | none => Except.error ⟨404, "Service not found"⟩
      | some service =>
        Except.ok (match data.revenue with
                   | some r => some r
                   | none => some service.price)
    | none => Except.ok data.revenue
  match serviceRevenue? with
  | Except.error e => Except.error e
  | Except.ok _ =>
  match db.appointments.find? (fun a =>
      a.providerId == data.providerId && a.status != cancelledStatus &&
      decide (a.startTime < data.endTime) && decide (a.endTime > data.startTime)) with
  | some _ =>
    Except.error ⟨409, "Provider has another appointment at this time"⟩
  | none =>
    -- Appointment(service_id=..., revenue=..., ...) raises a TypeError on
    -- the unmapped keywords before anything is added to the session; the
    -- unhandled exception becomes a 500 response and no row is created
    Except.error ⟨500, apptKwargTypeError⟩

/-- Body of `PUT /appointments/{id}` (`AppointmentUpdate` schema); every
field optional. -/
structure ApptUpdatePayload where
  providerId : Option String := none
  clientId : Option String := none
  serviceId : Option String := none
  startTime : Option Int := none
  endTime : Option Int := none
  title : Option String := none
  serviceType : Option String := none
  notes : Option String := none
  status : Option String := none
  revenue : Option ℚ := none
  color : Option String := none
deriving Repr, DecidableEq

/-- The field-by-field update block of the `update_appointment` endpoint
(`routers/appointments.py` lines 264-291); no overlap or blocked-time
check is performed. The `service_id` and `revenue` assignments in that
block target attributes the appointments model does not map: `setattr` on
a loaded instance succeeds at the Python level but sets only transient
attributes that `commit` never writes to the table, so the persisted row
carries only the mapped columns below. -/
def applyApptUpdate (data : ApptUpdatePayload) (a : Appt) : Appt :=
  let a := match data.providerId with | some v => { a with providerId := v } | none => a
  let a := match data.clientId with | some v => { a with clientId := v } | none => a
  let a := match data.startTime with | some v => { a with startTime := v } | none => a
  let a := match data.endTime with | some v => { a with endTime := v } | none => a
  let a := match data.title with | some v => { a with title := some v } | none => a
  let a := match data.serviceType with | some v => { a with serviceType := some v } | none => a
  let a := match data.notes with | some v => { a with notes := some v } | none => a
  let a := match data.status with | some v => { a with status := v } | none => a
  match data.color with | some v => { a with color := some v } | none => a

/-- `update_appointment` endpoint (`routers/appointments.py` lines
253-296). -/
def httpUpdateAppointment (apptId : String) (data : ApptUpdatePayload)
    (db : DB) : Except HTTPError (Appt × DB) :=
  match db.appointments.find? (fun a => a.id == apptId) with
  | none => Except.error ⟨404, "Appointment not found"⟩
  | some appt =>
    let appt' := applyApptUpdate data appt
    Except.ok (appt',
      { db with appointments := db.appointments.map (fun a =>
          if a.id == apptId then appt' else a) })

/-- Store state after an HTTP write, with a raised `HTTPException` leaving
the store unchanged (the transaction never committed). -/
def exceptDB (r : Except HTTPError (Appt × DB)) (db : DB) : DB :=
  match r with
  | Except.ok (_, db') => db'
  | Except.error _ => db

/-- One expanded occurrence of a recurring blocked time
(`expand_recurring_blocked_time` builds these dictionaries). -/
structure BlockedOccurrence where
  id : String
  providerId : String
  startTime : Int
  endTime : Int
  blockType : Option String
  reason : Option String
  recurrencePattern : Option String
deriving Repr, DecidableEq

/-- Instance dictionary built inside the expansion loop. -/
def mkOccurrence (bt : BlockedRow) (s e : Int) : BlockedOccurrence :=
  ⟨bt.id, bt.providerId, s, e, bt.blockType, bt.reason, bt.recurrencePattern⟩

/-- Step in minutes of a recurrence pattern; `none` for an unrecognized
pattern, which makes the loop break after at most one iteration. Monthly
recurrence steps a flat 30 days, as in source. -/
def patternStep : String → Option Int
  | "daily" => some minutesPerDay
  | "weekly" => some (7 * minutesPerDay)
  | "monthly" => some (30 * minutesPerDay)
  | _ => none

/-- The `while current_start <= range_end` loop of
`expand_recurring_blocked_time`, for a recognized pattern with step
`step`. An occurrence is kept when its end reaches `rangeStart`. -/
def expandLoop (bt : BlockedRow) (rangeStart rangeEnd : Int)
    (step : Int) (hstep : 0 < step) (curStart dur : Int) :
    List BlockedOccurrence :=
  if h : curStart ≤ rangeEnd then
    (if rangeStart ≤ curStart + dur then
       [mkOccurrence bt curStart (curStart + dur)]
     else []) ++
    expandLoop bt rangeStart rangeEnd step hstep (curStart + step) dur
  else []
termination_by (rangeEnd + step - curStart).toNat
decreasing_by
  omega

/-- Cap of the expansion range end by the recurrence end date, when one
is set (`expand_recurring_blocked_time` lines 84-85). -/
def effectiveRangeEnd (bt : BlockedRow) (rangeEnd0 : Int) : Int :=
  match bt.recurrenceEndDate with
  | some recEnd => if recEnd < rangeEnd0 then recEnd else rangeEnd0
  | none => rangeEnd0

/-- `expand_recurring_blocked_time` (`routers/blocked_times.py` lines
76-118) with the query range already resolved to instants: the effective
range end is capped by the recurrence end date when one is set, and the
template interval is stepped by the pattern until it passes the range
end. -/
def expandRecurringBlockedTime (bt : BlockedRow)
    (rangeStart rangeEnd0 : Int) : List BlockedOccurrence :=
  let rangeEnd := effectiveRangeEnd bt rangeEnd0
  let dur := bt.endTime - bt.startTime
  match bt.recurrencePattern.getD "" with
  | "daily" =>
    expandLoop bt rangeStart rangeEnd minutesPerDay (by decide) bt.startTime dur
  | "weekly" =>
    expandLoop bt rangeStart rangeEnd (7 * minutesPerDay) (by decide) bt.startTime dur
  | "monthly" =>
    expandLoop bt rangeStart rangeEnd (30 * minutesPerDay) (by decide) bt.startTime dur
  | _ =>
    -- unrecognized pattern: the loop body runs once and breaks
    if bt.startTime ≤ rangeEnd then
      (if rangeStart ≤ bt.startTime + dur then
         [mkOccurrence bt bt.startTime (bt.startTime + dur)]
       else [])
    else []

/-- Parsed model response of `GeminiService.generate_response`: reply
text, the model label, and the structured function calls extracted from
the candidates. -/
structure GenResponse where
  text : String
  model : String
  functionCalls : List (String × Args)
deriving Repr, DecidableEq

/-- `GeminiService._get_simulated_response`: the fixed degraded-mode
reply. -/
def simulatedResponse : GenResponse :=
  { text := "AI is in simulated mode. Please check GEMINI_API_KEY.",
    model := "simulated", functionCalls := [] }

/-- `GeminiService.generate_response` (`gemini_service.py` lines 390-483).
The external model call is abstracted as an oracle: `configured` is
whether `GEMINI_API_KEY` produced a client, and `outcome` is the parsed
result of the upstream call, `none` standing for any raised exception
(timeout, network fault, malformed response). Both failure modes fall
back to the simulated response. -/
def generateResponse (configured : Bool) (outcome : Option GenResponse) :
    GenResponse :=
  if configured then
    match outcome with
    | some r => r
    | none => simulatedResponse
  else simulatedResponse

/-- One entry of the `functionCalls` list returned by the chat endpoint. -/
structure FunctionCallResult where
  function : String
  args : Args
  result : ActionResult
deriving Repr, DecidableEq

/-- `_execute_function_calls` (`routers/ai.py` lines 147-160): run each
returned call in order through `execute_function`, threading the store. -/
def execFunctionCalls : List (String × Args) → DB → List FunctionCallResult × DB
  | [], db => ([], db)
  | (n, a) :: rest, db =>
    let rd := executeFunction n a db
    let rest' := execFunctionCalls rest rd.2
    (⟨n, a, rd.1⟩ :: rest'.1, rest'.2)

/-- `_build_response_text` (`routers/ai.py` lines 163-185). -/
def buildResponseText (text : String) (frs : List FunctionCallResult) : String :=
  let resultMessages := frs.filterMap (fun fr =>
    if fr.result.success && pyTruthy fr.result.message then fr.result.message
    else if !fr.result.success then
      some ("❌ " ++ fr.result.error.getD "Something went wrong")
    else none)
  let responseText :=
    if !resultMessages.isEmpty then
      if text ≠ "" then
        text ++ "\n\n" ++ String.intercalate "\n\n" resultMessages
      else String.intercalate "\n\n" resultMessages
    else text
  if responseText = "" then "Done! ✅" else responseText

/-- Request body of `POST /ai/chat` (`AIMessageRequest`). -/
structure ChatRequest where
  chatId : Option String
  message : String
deriving Repr, DecidableEq

/-- Response of `POST /ai/chat`. -/
structure ChatResponse where
  chatId : String
  userMessage : MessageRow
  aiMessage : MessageRow
  functionResults : List FunctionCallResult
deriving Repr, DecidableEq

/-- `chat_with_ai` (`routers/ai.py` lines 21-87). External dependencies
are oracles: `configured`/`outcome` abstract the Gemini call as in
`generateResponse`. Steps actually reached: resolve or create the chat
(committed), persist the user message (committed), call the model
(falling back to simulated mode), execute the returned calls (each
committing through `execute_function`), compose the reply - and then
`_save_ai_message` (lines 188-206) constructs
`Message(..., audio_data=..., audio_mime_type=...)`, whose unmapped
keywords always raise a TypeError. The endpoint's `except Exception`
rolls back the open transaction (the earlier commits persist) and
re-raises HTTP 500, so no turn ever returns the composed reply; the
result is returned together with the surviving store. -/
def chatWithAI (req : ChatRequest) (configured : Bool)
    (outcome : Option GenResponse) (db : DB) :
    Except HTTPError ChatResponse × DB :=
  let chatResolution : Except HTTPError (ChatRow × DB) :=
    match req.chatId with
    | some cid =>
      match db.chats.find? (fun c => c.id == cid) with
      | none => Except.error ⟨404, "Chat not found"⟩
      | some chat => Except.ok (chat, db)
    | none =>
      let title :=
        if 50 < req.message.length then req.message.take 50 ++ "..."
        else req.message
      let chat : ChatRow := ⟨db.freshId, some title, none, none⟩
      Except.ok (chat, { db with chats := db.chats ++ [chat],
                                 nextId := db.nextId + 1 })
  match chatResolution with
  | Except.error e => (Except.error e, db)
  | Except.ok (chat, db1) =>
    let userMsg : MessageRow :=
      { id := db1.freshId, chatId := chat.id, content := req.message,
        messageType := "user", modelUsed := none }
    let db2 := { db1 with messages := db1.messages ++ [userMsg],
                          nextId := db1.nextId + 1 }
    let aiResp := generateResponse configured outcome
    let frs := execFunctionCalls aiResp.functionCalls db2
    let _responseText := buildResponseText aiResp.text frs.1
    -- _save_ai_message: Message(..., audio_data=...) raises TypeError
    -- before any insert; the outer handler rolls back and maps it to 500
    (Except.error ⟨500, msgKwargTypeError⟩, frs.2)

/-- Parameter names the published `search_clients` tool schema declares
(`SCHEDULING_TOOLS` in `gemini_service.py`, lines 180-193): the search
string is exposed as "name" and is the only, required, parameter. -/
def searchClientsSchemaParams : List String := ["name"]

/-! ## Invariants -/

/-- Two appointments conflict when they belong to the same provider, are
both non-cancelled and their `[start, end)` intervals intersect. This
pairwise predicate says they do not. -/
def apptNoConflictPair (a b : Appt) : Prop :=
  a.providerId = b.providerId → a.status ≠ cancelledStatus →
    b.status ≠ cancelledStatus →
    ¬(a.startTime < b.endTime ∧ b.startTime < a.endTime)

/-- The committed store holds no pair of overlapping non-cancelled
appointments of the same provider. -/
def conflictFree (db : DB) : Prop :=
  db.appointments.Pairwise apptNoConflictPair

/-- No non-cancelled appointment intersects the stored interval of an
active blocked-time row of its provider. -/
def noBlockedRowOverlap (db : DB) : Prop :=
  ∀ a ∈ db.appointments, a.status ≠ cancelledStatus →
    ∀ b ∈ db.blockedTimes, b.isActive = true → b.providerId = a.providerId →
      ¬(b.startTime < a.endTime ∧ a.startTime < b.endTime)

/-! ## Supporting lemmas -/

/-- Unfolding equation of the expansion loop. -/
lemma expandLoop_eq (bt : BlockedRow) (rs re step : Int) (hs : 0 < step)
    (cur dur : Int) :
    expandLoop bt rs re step hs cur dur =
      if cur ≤ re then
        (if rs ≤ cur + dur then [mkOccurrence bt cur (cur + dur)] else []) ++
        expandLoop bt rs re step hs (cur + step) dur
      else [] := by
  rw [expandLoop]
  simp

/-- Every occurrence emitted by the loop starts no later than the range
end the loop was given. -/
lemma expandLoop_start_le (bt : BlockedRow) (rs re step : Int) (hs : 0 < step)
    (cur dur : Int) : ∀ o ∈ expandLoop bt rs re step hs cur dur, o.startTime ≤ re := by
  induction cur, dur using expandLoop.induct bt rs re step hs with
  | case1 cur dur h ih =>
    intro o ho
    rw [expandLoop_eq, if_pos h] at ho
    rcases List.mem_append.mp ho with h1 | h2
    · by_cases hr : rs ≤ cur + dur
      · rw [if_pos hr] at h1
        simp only [List.mem_singleton] at h1
        subst h1
        simpa [mkOccurrence] using h
      · rw [if_neg hr] at h1
        cases h1
    · exact ih o h2
  | case2 cur dur h =>
    intro o ho
    rw [expandLoop_eq, if_neg h] at ho
    cases ho

/-- The effective range end never exceeds the queried range end. -/
lemma effectiveRangeEnd_le (bt : BlockedRow) (re0 : Int) :
    effectiveRangeEnd bt re0 ≤ re0 := by
  unfold effectiveRangeEnd
  cases bt.recurrenceEndDate with
  | none => exact le_refl _
  | some r =>
    dsimp only
    split <;> omega

/-- Every expanded occurrence starts inside the bounded window: expansion
is capped by the recurrence end date or the query horizon. -/
lemma expandRecurring_start_le (bt : BlockedRow) (rs re : Int) :
    ∀ o ∈ expandRecurringBlockedTime bt rs re, o.startTime ≤ re := by
  intro o ho
  have hre := effectiveRangeEnd_le bt re
  unfold expandRecurringBlockedTime at ho
  split at ho
  · exact le_trans (expandLoop_start_le _ _ _ _ _ _ _ o ho) hre
  · exact le_trans (expandLoop_start_le _ _ _ _ _ _ _ o ho) hre
  · exact le_trans (expandLoop_start_le _ _ _ _ _ _ _ o ho) hre
  · dsimp only at ho
    split at ho
    · split at ho
      · simp only [List.mem_singleton] at ho
        subst ho
        simp only [mkOccurrence]
        omega
      · cases ho
    · cases ho

/-- A weekly recurring blocked-time template holding 12:00-13:00 of the
day starting at instant `t0` (in the claimed scenario `t0` is a Monday
midnight), with no recurrence end date. -/
def mondayNoonWeeklyBlock (t0 : Int) : BlockedRow :=
  ⟨"b1", "p1", t0 + 720, t0 + 780, some "lunch", some "Lunch break", true,
   some "weekly", none, true⟩

/-! ## Claims -/

/-- Concrete expansion of the weekly noon template over a 14-day window:
exactly the anchor occurrence and the one 7 days later. -/
lemma mondayNoonWeekly_expansion (t0 : Int) :
    expandRecurringBlockedTime (mondayNoonWeeklyBlock t0) t0
        (t0 + 14 * minutesPerDay) =
      [mkOccurrence (mondayNoonWeeklyBlock t0) (t0 + 720) (t0 + 780),
       mkOccurrence (mondayNoonWeeklyBlock t0) (t0 + 10800) (t0 + 10860)] := by
  show expandLoop _ t0 (t0 + 14 * minutesPerDay) (7 * minutesPerDay) (by decide)
    ((mondayNoonWeeklyBlock t0).startTime)
    ((mondayNoonWeeklyBlock t0).endTime - (mondayNoonWeeklyBlock t0).startTime) = _
  have e1 : (mondayNoonWeeklyBlock t0).startTime = t0 + 720 := rfl
  have e2 : (mondayNoonWeeklyBlock t0).endTime = t0 + 780 := rfl
  rw [e1, e2]
  have d1 : t0 + 780 - (t0 + 720) = 60 := by omega
  rw [d1]
  have h1 : t0 + 720 ≤ t0 + 14 * minutesPerDay := by
    simp only [minutesPerDay]; omega
  have h1r : t0 ≤ t0 + 720 + 60 := by omega
  rw [expandLoop_eq, if_pos h1, if_pos h1r]
  have h2 : t0 + 720 + 7 * minutesPerDay ≤ t0 + 14 * minutesPerDay := by
    simp only [minutesPerDay]; omega
  have h2r : t0 ≤ t0 + 720 + 7 * minutesPerDay + 60 := by
    simp only [minutesPerDay]; omega
  rw [expandLoop_eq, if_pos h2, if_pos h2r]
  have h3 : ¬ (t0 + 720 + 7 * minutesPerDay + 7 * minutesPerDay ≤
      t0 + 14 * minutesPerDay) := by
    simp only [minutesPerDay]; omega
  rw [expandLoop_eq, if_neg h3]
  simp [mkOccurrence, minutesPerDay]
  omega

/-- C7: expanding a weekly recurring blocked time 12:00-13:00 of day
`t0` with no recurrence end date over the 14-day window starting at `t0`
yields exactly the original occurrence and the occurrence 7 days later
with the same one-hour duration; and in general every expanded
occurrence starts within the queried horizon (the loop is bounded by the
explicit end date or the window end). -/
theorem weekly_expansion_two_occurrences_and_bounded :
    (∀ t0 : Int,
       expandRecurringBlockedTime (mondayNoonWeeklyBlock t0) t0
           (t0 + 14 * minutesPerDay) =
         [mkOccurrence (mondayNoonWeeklyBlock t0) (t0 + 720) (t0 + 780),
          mkOccurrence (mondayNoonWeeklyBlock t0) (t0 + 10800) (t0 + 10860)]) ∧
    (∀ (bt : BlockedRow) (rs re : Int),
       ∀ o ∈ expandRecurringBlockedTime bt rs re, o.startTime ≤ re) :=
  ⟨mondayNoonWeekly_expansion, fun bt rs re => expandRecurring_start_le bt rs re⟩

/-- C7 witness: the general bound applied to a concrete expansion, and
the scenario equality at the Monday 2025-03-10. -/
theorem weekly_expansion_two_occurrences_and_bounded_witness :
    (expandRecurringBlockedTime (mondayNoonWeeklyBlock (dateToInt 2025 3 10))
        (dateToInt 2025 3 10) (dateToInt 2025 3 10 + 14 * minutesPerDay) =
      [mkOccurrence (mondayNoonWeeklyBlock (dateToInt 2025 3 10))
          (dateToInt 2025 3 10 + 720) (dateToInt 2025 3 10 + 780),
       mkOccurrence (mondayNoonWeeklyBlock (dateToInt 2025 3 10))
          (dateToInt 2025 3 10 + 10800) (dateToInt 2025 3 10 + 10860)]) ∧
    (mkOccurrence (mondayNoonWeeklyBlock 0) (0 + 720) (0 + 780)).startTime ≤ 20160 := by
  refine ⟨weekly_expansion_two_occurrences_and_bounded.1 (dateToInt 2025 3 10),
    weekly_expansion_two_occurrences_and_bounded.2 (mondayNoonWeeklyBlock 0) 0 20160
      (mkOccurrence (mondayNoonWeeklyBlock 0) (0 + 720) (0 + 780)) ?_⟩
  have h20 : (20160 : Int) = 0 + 14 * minutesPerDay := by
    simp only [minutesPerDay]; omega
  rw [h20, mondayNoonWeekly_expansion 0]
  exact List.mem_cons_self _ _

instance (db : DB) : Decidable (conflictFree db) := by
  unfold conflictFree apptNoConflictPair
  infer_instance

instance (db : DB) : Decidable (noBlockedRowOverlap db) := by
  unfold noBlockedRowOverlap
  infer_instance

/-- The assistant's create action never changes the store: every failure
path returns before any insert, and when all checks pass the
`Appointment(service_id=..., ...)` construction raises the unmapped-kwarg
TypeError, which the except branch turns into a rolled-back structured
error. -/
lemma aiCreateAppointment_unchanged (args : Args) (db : DB) :
    (aiCreateAppointment args db).2 = db := by
  simp only [aiCreateAppointment]
  repeat' split
  all_goals rfl

/-- The HTTP create endpoint never returns a created appointment: every
run ends in a raised response (404, 409, or the constructor TypeError
surfaced as 500). -/
lemma httpCreateAppointment_never_ok (data : ApptCreatePayload) (db : DB)
    (pr : Appt × DB) : httpCreateAppointment data db ≠ Except.ok pr := by
  simp only [httpCreateAppointment]
  repeat' split
  all_goals simp

/-- Hence `POST /appointments` leaves the store unchanged. -/
lemma httpCreateAppointment_unchanged (data : ApptCreatePayload) (db : DB) :
    exceptDB (httpCreateAppointment data db) db = db := by
  cases hres : httpCreateAppointment data db with
  | error e => simp [exceptDB]
  | ok pr => exact absurd hres (httpCreateAppointment_never_ok data db pr)

/-- Fixture for C1: one provider and one client. -/
def c1Provider : ProviderRow :=
  ⟨"p1", "Dr. X", none, none, none, none, "#1a73e8", "09:00-17:00", true⟩

/-- Fixture client for C1. -/
def c1Client : ClientRow := ⟨"c1", "Zara", none, none, true⟩

/-- Pre-existing appointment of provider p1, 08:00-09:00 of epoch day 0
(a seeded row: no create path of this snapshot can insert
appointments). -/
def c1ApptA : Appt :=
  ⟨"a1", "p1", "c1", 480, 540, none, none, none, "scheduled", none⟩

/-- Second pre-existing appointment of provider p1, 15:00-16:00, disjoint
from the first. -/
def c1ApptB : Appt :=
  ⟨"a2", "p1", "c1", 900, 960, none, none, none, "scheduled", none⟩

/-- Initial store for C1. -/
def c1db0 : DB :=
  { DB.empty with providers := [c1Provider], clients := [c1Client],
                  appointments := [c1ApptA, c1ApptB], nextId := 2 }

/-- A create request payload (no payload can ever be committed by the
endpoint). -/
def c1pay1 : ApptCreatePayload :=
  { providerId := "p1", clientId := "c1", startTime := 600, endTime := 660 }

/-- `PUT /appointments/a1` moving the first appointment to 10:00-11:00. -/
def c1upd1 : ApptUpdatePayload := { startTime := some 600, endTime := some 660 }

/-- `PUT /appointments/a2` moving the second appointment to 10:30-11:30,
which overlaps the first. -/
def c1upd2 : ApptUpdatePayload := { startTime := some 630, endTime := some 690 }

/-- Store after the first update committed. -/
def c1db1 : DB := exceptDB (httpUpdateAppointment "a1" c1upd1 c1db0) c1db0

/-- Store after the second update committed. -/
def c1db2 : DB := exceptDB (httpUpdateAppointment "a2" c1upd2 c1db1) c1db1

/-- C1 counterexample: both appointments of provider p1 are committed to
the store through the HTTP update endpoint - one moved to 10:00-11:00,
the other to 10:30-11:30 - and because that endpoint performs no overlap
check, the final store holds two distinct non-cancelled appointments of
the same provider with intersecting intervals. -/
theorem update_endpoint_breaks_overlap_invariant :
    conflictFree c1db0 ∧ conflictFree c1db1 ∧ ¬ conflictFree c1db2 :=
  ⟨by decide, by decide, by decide⟩

/-- C1 (amended): in this snapshot neither appointment-creating write
path can commit anything - the assistant's action always fails at the
unmapped `service_id` keyword and returns the store unchanged, and the
HTTP create endpoint always raises before inserting - so both trivially
preserve the invariant that non-cancelled appointments of one provider
never overlap; the HTTP update endpoint checks nothing and can commit
overlapping appointments. -/
theorem create_paths_preserve_overlap_invariant (db : DB) (args : Args)
    (data : ApptCreatePayload) :
    (aiCreateAppointment args db).2 = db ∧
    exceptDB (httpCreateAppointment data db) db = db ∧
    (conflictFree db →
      conflictFree (aiCreateAppointment args db).2 ∧
      conflictFree (exceptDB (httpCreateAppointment data db) db)) := by
  refine ⟨aiCreateAppointment_unchanged args db,
    httpCreateAppointment_unchanged data db, ?_⟩
  intro h
  rw [aiCreateAppointment_unchanged args db,
    httpCreateAppointment_unchanged data db]
  exact ⟨h, h⟩

/-- C1 witness: the preservation theorem applied to the seeded store,
with its conflict-freeness hypothesis discharged concretely. -/
theorem create_paths_preserve_overlap_invariant_witness :
    (aiCreateAppointment [] c1db0).2 = c1db0 ∧
    conflictFree (aiCreateAppointment [] c1db0).2 ∧
    conflictFree (exceptDB (httpCreateAppointment c1pay1 c1db0) c1db0) :=
  ⟨(create_paths_preserve_overlap_invariant c1db0 [] c1pay1).1,
   ((create_paths_preserve_overlap_invariant c1db0 [] c1pay1).2.2 (by decide)).1,
   ((create_paths_preserve_overlap_invariant c1db0 [] c1pay1).2.2 (by decide)).2⟩

/-- Provider fixture for C2. -/
def c2Provider : ProviderRow :=
  ⟨"p1", "Dr. X", none, none, none, none, "#1a73e8", "09:00-17:00", true⟩

/-- Client fixture for C2. -/
def c2Client : ClientRow := ⟨"c1", "Zara", none, none, true⟩

/-- Active weekly recurring blocked time anchored at noon of Monday
2025-03-10 for provider p1. -/
def c2Block : BlockedRow := mondayNoonWeeklyBlock (dateToInt 2025 3 10)

/-- Store for C2: the provider, the client and the recurring block. -/
def c2db : DB :=
  { DB.empty with providers := [c2Provider], clients := [c2Client],
                  blockedTimes := [c2Block] }

/-- Assistant booking request for Monday 2025-03-17 12:00-13:00, exactly
the second expanded occurrence of the block. -/
def c2args : Args :=
  [("provider_id", "p1"), ("client_id", "c1"), ("date", "2025-03-17"),
   ("start_time", "12:00"), ("end_time", "13:00")]

/-- The same booking as an HTTP create payload. -/
def c2pay : ApptCreatePayload :=
  { providerId := "p1", clientId := "c1",
    startTime := dateToInt 2025 3 17 + 720, endTime := dateToInt 2025 3 17 + 780 }

/-- The recurrence-expanded occurrence of the block one week after its
anchor. -/
def c2occ : BlockedOccurrence :=
  mkOccurrence c2Block (dateToInt 2025 3 10 + 10800) (dateToInt 2025 3 10 + 10860)

/-- C2 counterexample: a booking that exactly coincides with a
recurrence-expanded occurrence of an active weekly blocked time is not
rejected as a blocked-time overlap by any write path: the assistant's
blocked-time query - the only blocked-time guard in the system - matches
no row for the requested slot because it never expands recurrences, and
the failure both paths do report is the unrelated constructor TypeError,
not a blocked-time rejection; the HTTP create endpoint runs no blocked
check at all. -/
theorem recurring_block_occurrence_not_rejected :
    c2occ ∈ expandRecurringBlockedTime c2Block (dateToInt 2025 3 10)
      (dateToInt 2025 3 10 + 14 * minutesPerDay) ∧
    c2occ.startTime = dateToInt 2025 3 17 + 720 ∧
    c2occ.endTime = dateToInt 2025 3 17 + 780 ∧
    c2db.blockedTimes.find? (fun b =>
      some b.providerId == Args.get? c2args "provider_id" && b.isActive &&
      decide (b.startTime < dateToInt 2025 3 17 + 780) &&
      decide (b.endTime > dateToInt 2025 3 17 + 720)) = none ∧
    (aiCreateAppointment c2args c2db).1.error = some apptKwargTypeError ∧
    httpCreateAppointment c2pay c2db = Except.error ⟨500, apptKwargTypeError⟩ := by
  refine ⟨?_, by decide, by decide, by decide, by decide, by decide⟩
  show c2occ ∈ expandRecurringBlockedTime (mondayNoonWeeklyBlock (dateToInt 2025 3 10))
    (dateToInt 2025 3 10) (dateToInt 2025 3 10 + 14 * minutesPerDay)
  rw [mondayNoonWeekly_expansion]
  exact List.mem_cons_of_mem _ (List.mem_cons_self _ _)

/-- C2 (amended): the only blocked-time guard is in the assistant's
create action, and it compares the requested interval only against
stored template rows of active blocked times, never against
recurrence-expanded occurrences; the HTTP create endpoint has no
blocked-time check. In this snapshot neither path ever commits an
appointment (both fail at the unmapped `service_id` keyword), so the
appointment table - and with it the absence of appointment/blocked-row
overlap - is unchanged by them. -/
theorem ai_create_preserves_no_blocked_row_overlap (db : DB) (args : Args)
    (data : ApptCreatePayload) :
    (aiCreateAppointment args db).2.appointments = db.appointments ∧
    (aiCreateAppointment args db).2.blockedTimes = db.blockedTimes ∧
    (exceptDB (httpCreateAppointment data db) db).appointments = db.appointments ∧
    (noBlockedRowOverlap db → noBlockedRowOverlap (aiCreateAppointment args db).2) := by
  rw [aiCreateAppointment_unchanged args db,
    httpCreateAppointment_unchanged data db]
  exact ⟨rfl, rfl, rfl, fun h => h⟩

/-- C2 witness: the theorem applied to the C2 store, with the
blocked-overlap hypothesis discharged concretely. -/
theorem ai_create_preserves_no_blocked_row_overlap_witness :
    (aiCreateAppointment [] c2db).2.appointments = c2db.appointments ∧
    noBlockedRowOverlap (aiCreateAppointment [] c2db).2 :=
  ⟨(ai_create_preserves_no_blocked_row_overlap c2db [] c2pay).1,
   (ai_create_preserves_no_blocked_row_overlap c2db [] c2pay).2.2.2 (by decide)⟩

/-- Store holding a single soft-deleted client named Alice. -/
def c5db : DB := { DB.empty with clients := [⟨"c1", "Alice", none, none, false⟩] }

/-- C5 counterexample: every stored client named Alice is inactive
(soft-deleted), yet the create_client action still reports a conflict and
persists nothing - the duplicate-name query does not filter on the active
flag, contradicting the claim that the action succeeds in this case. -/
theorem inactive_same_name_client_still_conflicts :
    (∀ c ∈ c5db.clients, c.isActive = false) ∧
    (aiCreateClient [("name", "Alice")] c5db).1.success = false ∧
    (aiCreateClient [("name", "Alice")] c5db).2 = c5db :=
  ⟨by decide, by decide, by decide⟩

/-- C5 (amended): the create_client action returns a conflict error if
and only if any stored client - active or soft-deleted - bears exactly
the requested name; the conflict error quotes that name. -/
theorem create_client_conflict_iff_same_name_exists (db : DB) (args : Args)
    (nm : String) (hname : args.get? "name" = some nm) :
    ((aiCreateClient args db).1.success = false ↔
      ∃ c ∈ db.clients, c.name = nm) ∧
    ((aiCreateClient args db).1.success = false →
      (aiCreateClient args db).1.error =
        some ("Client " ++ sq ++ nm ++ sq ++ " already exists")) := by
  simp only [aiCreateClient, hname]
  cases hfind : db.clients.find? (fun c => some c.name == some nm) with
  | some c =>
    simp only [failWith]
    refine ⟨⟨fun _ => ?_, fun _ => trivial⟩, fun _ => rfl⟩
    refine ⟨c, List.mem_of_find?_eq_some hfind, ?_⟩
    have := List.find?_some hfind
    simpa [beq_iff_eq] using this
  | none =>
    simp only []
    constructor
    · constructor
      · intro hfalse
        simp at hfalse
      · rintro ⟨c, hc, hcname⟩
        have := List.find?_eq_none.mp hfind c hc
        simp [beq_iff_eq, hcname] at this
    · intro hfalse
      simp at hfalse

/-- C5 witness: one active client named Alice. -/
def c5wdb : DB := { DB.empty with clients := [⟨"c1", "Alice", none, none, true⟩] }

/-- C5 witness: the amended conflict rule applied to a store with one
active Alice. -/
theorem create_client_conflict_iff_same_name_exists_witness :
    ((aiCreateClient [("name", "Alice")] c5wdb).1.success = false ↔
      ∃ c ∈ c5wdb.clients, c.name = "Alice") ∧
    ((aiCreateClient [("name", "Alice")] c5wdb).1.success = false →
      (aiCreateClient [("name", "Alice")] c5wdb).1.error =
        some ("Client " ++ sq ++ "Alice" ++ sq ++ " already exists")) :=
  create_client_conflict_iff_same_name_exists c5wdb [("name", "Alice")] "Alice" rfl

/-- An empty sublist occurs in every list. -/
lemma subListOf_nil (m : List Char) : subListOf [] m = true := by
  cases m <;> simp [subListOf, List.isPrefixOf]

/-- A list occurs contiguously in any list that sandwiches it. -/
lemma subListOf_sandwich (p l m : List Char) : subListOf p (l ++ p ++ m) = true := by
  induction l with
  | nil =>
    cases p with
    | nil => simpa using subListOf_nil m
    | cons c cs =>
      simp only [List.nil_append, subListOf]
      have : List.isPrefixOf (c :: cs) ((c :: cs) ++ m) = true := by
        rw [List.isPrefixOf_iff_prefix]
        exact List.prefix_append _ _
      simp [this]
  | cons c cs ih =>
    simp only [List.cons_append, subListOf]
    cases p with
    | nil => simp [subListOf_nil]
    | cons d ds =>
      simp only [List.append_assoc, List.cons_append] at ih ⊢
      simp [ih]

/-- A string built around `p` contains `p` as a substring. -/
lemma containsSub_parts (a p b : String) : containsSub (a ++ p ++ b) p = true := by
  unfold containsSub
  have : (a ++ p ++ b).data = a.data ++ p.data ++ b.data := by
    simp [String.data_append]
  rw [this]
  exact subListOf_sandwich _ _ _

/-- C6 (amended): in the assistant's create_appointment, once provider,
client and times resolve, a blocked-time hit is reported before the
appointment-conflict query is consulted, and its error names the block's
reason; when no blocked time matches and an appointment conflicts, the
error is the generic "<provider> already has an appointment at this
time", which names the provider but not the conflicting appointment's
client. -/
theorem blocked_check_precedes_appointment_check (db : DB) (args : Args)
    (p : ProviderRow) (c : ClientRow) (s e : Int) (b : BlockedRow) (a : Appt)
    (hp : db.providers.find? (fun q => some q.id == args.get? "provider_id") = some p)
    (hc : db.clients.find? (fun q => some q.id == args.get? "client_id") = some c)
    (hs : parseDateTimeArgs (args.get? "date") (args.get? "start_time") = some s)
    (he : parseDateTimeArgs (args.get? "date") (args.get? "end_time") = some e) :
    (db.blockedTimes.find? (fun b' =>
        some b'.providerId == args.get? "provider_id" && b'.isActive &&
        decide (b'.startTime < e) && decide (b'.endTime > s)) = some b →
      (aiCreateAppointment args db).1 =
        failWith (p.displayName ++ " is unavailable at this time (" ++
          pyOrD (pyOr b.reason b.blockType) "blocked" ++ ")") ∧
      (pyTruthy b.reason = true →
        containsSub ((aiCreateAppointment args db).1.error.getD "")
          (b.reason.getD "") = true)) ∧
    (db.blockedTimes.find? (fun b' =>
        some b'.providerId == args.get? "provider_id" && b'.isActive &&
        decide (b'.startTime < e) && decide (b'.endTime > s)) = none →
     db.appointments.find? (fun a' =>
        some a'.providerId == args.get? "provider_id" &&
        a'.status != cancelledStatus &&
        decide (a'.startTime < e) && decide (a'.endTime > s)) = some a →
      (aiCreateAppointment args db).1 =
        failWith (p.displayName ++ " already has an appointment at this time")) := by
  constructor
  · intro hb
    have hres : (aiCreateAppointment args db).1 =
        failWith (p.displayName ++ " is unavailable at this time (" ++
          pyOrD (pyOr b.reason b.blockType) "blocked" ++ ")") := by
      simp only [aiCreateAppointment, hp, hc, hs, he, hb]
    refine ⟨hres, ?_⟩
    intro htr
    rw [hres]
    have hr : pyOrD (pyOr b.reason b.blockType) "blocked" = b.reason.getD "" := by
      unfold pyOrD pyOr
      cases hbr : b.reason with
      | none => simp [pyTruthy, hbr] at htr
      | some r =>
        have : pyTruthy (some r) = true := by rw [← hbr]; exact htr
        simp [this]
    rw [hr]
    simp only [failWith]
    have : p.displayName ++ " is unavailable at this time (" ++ b.reason.getD "" ++ ")" =
        (p.displayName ++ " is unavailable at this time (") ++
          b.reason.getD "" ++ ")" := by
      simp [String.append_assoc]
    rw [this]
    exact containsSub_parts _ _ _
  · intro hb ha
    simp only [aiCreateAppointment, hp, hc, hs, he, hb, ha]

/-- Provider fixture for C6. -/
def c6Provider : ProviderRow :=
  ⟨"p1", "Dr. X", none, none, none, none, "#1a73e8", "09:00-17:00", true⟩

/-- The client whose appointment will conflict. -/
def c6Zara : ClientRow := ⟨"c1", "Zara", none, none, true⟩

/-- The client attempting the second booking. -/
def c6Bob : ClientRow := ⟨"c2", "Bob", none, none, true⟩

/-- Existing appointment of Zara with Dr. X, 10:00-11:00 on
2025-03-10. -/
def c6Appt : Appt :=
  ⟨"a1", "p1", "c1", dateToInt 2025 3 10 + 600, dateToInt 2025 3 10 + 660,
   some "Zara", none, some "", "scheduled", some "#1a73e8"⟩

/-- Store for C6: provider, both clients and the existing appointment. -/
def c6db : DB :=
  { DB.empty with providers := [c6Provider], clients := [c6Zara, c6Bob],
                  appointments := [c6Appt], nextId := 1 }

/-- Bob's overlapping booking attempt 10:30-11:30 the same day. -/
def c6args : Args :=
  [("provider_id", "p1"), ("client_id", "c2"), ("date", "2025-03-10"),
   ("start_time", "10:30"), ("end_time", "11:30")]

/-- C6 counterexample: a booking that overlaps Zara's appointment fails
with the generic error "Dr. X already has an appointment at this time";
the conflicting appointment belongs to client Zara, whose name does not
occur in the error message, contradicting the claim that the error names
the client of the conflicting appointment. -/
theorem appointment_conflict_error_omits_client_name :
    (aiCreateAppointment c6args c6db).1.success = false ∧
    (aiCreateAppointment c6args c6db).1.error =
      some "Dr. X already has an appointment at this time" ∧
    ((c6db.clients.find? (fun c => c.id == "c1")).map (fun c => c.name)) =
      some "Zara" ∧
    containsSub "Dr. X already has an appointment at this time" "Zara" = false :=
  ⟨by decide, by decide, by decide, by decide⟩

/-- Store for the C6 witness: the same fixtures plus an active lunch
block 10:00-11:00. -/
def c6wdb : DB :=
  { c6db with blockedTimes :=
      [⟨"b1", "p1", dateToInt 2025 3 10 + 600, dateToInt 2025 3 10 + 660,
        some "lunch", some "Lunch", false, none, none, true⟩] }

/-- C6 witness: both branches of the ordering theorem exercised on
concrete stores - the blocked branch on a store with a matching block
(even though an appointment also conflicts there), the conflict branch on
the block-free store. -/
theorem blocked_check_precedes_appointment_check_witness :
    (aiCreateAppointment c6args c6wdb).1 =
      failWith ("Dr. X" ++ " is unavailable at this time (" ++ "Lunch" ++ ")") ∧
    (aiCreateAppointment c6args c6db).1 =
      failWith ("Dr. X" ++ " already has an appointment at this time") := by
  constructor
  · exact ((blocked_check_precedes_appointment_check c6wdb c6args c6Provider c6Bob
      (dateToInt 2025 3 10 + 630) (dateToInt 2025 3 10 + 690)
      ⟨"b1", "p1", dateToInt 2025 3 10 + 600, dateToInt 2025 3 10 + 660,
        some "lunch", some "Lunch", false, none, none, true⟩ c6Appt
      (by decide) (by decide) (by decide) (by decide)).1 (by decide)).1
  · exact (blocked_check_precedes_appointment_check c6db c6args c6Provider c6Bob
      (dateToInt 2025 3 10 + 630) (dateToInt 2025 3 10 + 690)
      ⟨"b1", "p1", 0, 0, none, none, false, none, none, true⟩ c6Appt
      (by decide) (by decide) (by decide) (by decide)).2 (by decide) (by decide)

/-- C9: creating a provider named "Dr. Cohen" with no explicit title
succeeds against any store with no active provider of that name, stores
`None` in the title column (so the courtesy prefix is never duplicated),
and the display name composed by `get_display_name` is exactly
"Dr. Cohen". -/
theorem create_provider_dr_cohen_display_name (db : DB)
    (h : db.providers.find? (fun p => p.name == "Dr. Cohen" && p.isActive) = none) :
    (aiCreateProvider [("name", "Dr. Cohen")] db).1.success = true ∧
    ∃ p, (aiCreateProvider [("name", "Dr. Cohen")] db).2.providers =
        db.providers ++ [p] ∧ p.title = none ∧ p.displayName = "Dr. Cohen" := by
  have hn : Args.get? [("name", "Dr. Cohen")] "name" = some "Dr. Cohen" := rfl
  have ht : startsWithTitleToken "Dr. Cohen" = true := rfl
  simp only [aiCreateProvider, hn, ht, if_true, h]
  exact ⟨trivial, _, rfl, rfl, rfl⟩

/-- C9 witness: the round-trip applied to the empty store. -/
theorem create_provider_dr_cohen_display_name_witness :
    (aiCreateProvider [("name", "Dr. Cohen")] DB.empty).1.success = true ∧
    ∃ p, (aiCreateProvider [("name", "Dr. Cohen")] DB.empty).2.providers =
        DB.empty.providers ++ [p] ∧ p.title = none ∧ p.displayName = "Dr. Cohen" :=
  create_provider_dr_cohen_display_name DB.empty (by decide)

/-- The empty pattern matches every string under `ILIKE`. -/
lemma ilike_empty (s : String) : ilikeContains "" s = true := by
  unfold ilikeContains
  have h : ("" : String).data = [] := rfl
  rw [h]
  exact subListOf_nil _

/-- C10: when the argument bag lacks the key "query" - which is what
calls built from the published tool schema produce, since the schema
names the parameter "name" - the search_clients handler searches with
the empty string, the empty pattern matches every active client, and the
result is success with the first 10 active clients, read-only. -/
theorem search_clients_missing_query_lists_all_active (args : Args) (db : DB)
    (h : args.get? "query" = none) :
    (aiSearchClients args db).1.success = true ∧
    (aiSearchClients args db).2 = db ∧
    searchMatches (args.getD "query" "") db =
      (db.clients.filter (fun c => c.isActive)).take 10 ∧
    "query" ∉ searchClientsSchemaParams := by
  have hq : args.getD "query" "" = "" := by simp [Args.getD, h]
  refine ⟨?_, ?_, ?_, by decide⟩
  · simp only [aiSearchClients]
    split <;> rfl
  · simp only [aiSearchClients]
    split <;> rfl
  · rw [hq]
    unfold searchMatches
    congr 1
    apply List.filter_congr
    intro c _
    simp [ilike_empty]

/-- C10 witness store: two active clients and one inactive. -/
def c10db : DB :=
  { DB.empty with clients :=
      [⟨"c1", "Ann", none, none, true⟩, ⟨"c2", "Bob", none, none, false⟩,
       ⟨"c3", "Cara", none, none, true⟩] }

/-- C10 witness: a call shaped like the schema produces (its only key is
"name") applied to the mixed store. -/
theorem search_clients_missing_query_lists_all_active_witness :
    (aiSearchClients [("name", "Ann")] c10db).1.success = true ∧
    (aiSearchClients [("name", "Ann")] c10db).2 = c10db ∧
    searchMatches (Args.getD [("name", "Ann")] "query" "") c10db =
      (c10db.clients.filter (fun c => c.isActive)).take 10 ∧
    "query" ∉ searchClientsSchemaParams :=
  search_clients_missing_query_lists_all_active [("name", "Ann")] c10db rfl

/-- A failing create_appointment action leaves the store untouched: in
this snapshot every run fails (at the latest on the constructor
TypeError) and every failure path returns the untouched, rolled-back
store. -/
lemma aiCreateAppointment_fail (args : Args) (db : DB) :
    (aiCreateAppointment args db).1.success = false →
    (aiCreateAppointment args db).2 = db :=
  fun _ => aiCreateAppointment_unchanged args db

/-- get_appointments is read-only. -/
lemma aiGetAppointments_db (args : Args) (db : DB) :
    (aiGetAppointments args db).2 = db := by
  simp only [aiGetAppointments]
  repeat' split
  all_goals rfl

/-- check_availability is read-only. -/
lemma aiCheckAvailability_db (args : Args) (db : DB) :
    (aiCheckAvailability args db).2 = db := by
  simp only [aiCheckAvailability]
  repeat' split
  all_goals rfl

/-- A failing cancel_appointment leaves the store untouched. -/
lemma aiCancelAppointment_fail (args : Args) (db : DB) :
    (aiCancelAppointment args db).1.success = false →
    (aiCancelAppointment args db).2 = db := by
  simp only [aiCancelAppointment]
  repeat' split
  all_goals intro h
  all_goals first | rfl | simp at h

/-- A failing create_client leaves the store untouched. -/
lemma aiCreateClient_fail (args : Args) (db : DB) :
    (aiCreateClient args db).1.success = false →
    (aiCreateClient args db).2 = db := by
  simp only [aiCreateClient]
  repeat' split
  all_goals intro h
  all_goals first | rfl | simp at h

/-- A failing create_provider leaves the store untouched. -/
lemma aiCreateProvider_fail (args : Args) (db : DB) :
    (aiCreateProvider args db).1.success = false →
    (aiCreateProvider args db).2 = db := by
  simp only [aiCreateProvider]
  repeat' split
  all_goals intro h
  all_goals first | rfl | simp at h

/-- search_clients is read-only. -/
lemma aiSearchClients_db (args : Args) (db : DB) :
    (aiSearchClients args db).2 = db := by
  simp only [aiSearchClients]
  repeat' split
  all_goals rfl

/-- get_provider_schedule is read-only. -/
lemma aiGetProviderSchedule_db (args : Args) (db : DB) :
    (aiGetProviderSchedule args db).2 = db := by
  simp only [aiGetProviderSchedule]
  repeat' split
  all_goals rfl

/-- C3: the registry dispatcher is a total function into structured
results - no exception reaches the orchestrator in the embedding, where
every Python exception site is routed to the handler's except branch -
and it is transactional: whenever the returned result has success:false,
the store is exactly the store from before the call; an unknown action
name yields the structured "Unknown function" error and changes
nothing. -/
theorem execute_function_failure_leaves_store_unchanged (funcName : String)
    (args : Args) (db : DB) :
    ((executeFunction funcName args db).1.success = false →
      (executeFunction funcName args db).2 = db) ∧
    (funcName ∉ registeredFunctionNames →
      executeFunction funcName args db =
        (failWith ("Unknown function: " ++ funcName), db)) := by
  constructor
  · simp only [executeFunction]
    split
    · exact aiCreateAppointment_fail args db
    · split
      · intro _; exact aiGetAppointments_db args db
      · split
        · intro _; exact aiCheckAvailability_db args db
        · split
          · exact aiCancelAppointment_fail args db
          · split
            · exact aiCreateClient_fail args db
            · split
              · exact aiCreateProvider_fail args db
              · split
                · intro _; exact aiSearchClients_db args db
                · split
                  · intro _; exact aiGetProviderSchedule_db args db
                  · intro _; rfl
  · intro hn
    simp only [registeredFunctionNames, List.mem_cons, List.not_mem_nil,
      or_false] at hn
    push_neg at hn
    obtain ⟨h1, h2, h3, h4, h5, h6, h7, h8⟩ := hn
    simp only [executeFunction, if_neg h1, if_neg h2, if_neg h3, if_neg h4,
      if_neg h5, if_neg h6, if_neg h7, if_neg h8]

/-- C3 witness: a failing registered action (create_client without a
name hits the NOT NULL insert failure) leaves the empty store unchanged,
and an unregistered name returns the structured unknown-function
error. -/
theorem execute_function_failure_leaves_store_unchanged_witness :
    (executeFunction "create_client" [] DB.empty).2 = DB.empty ∧
    executeFunction "no_such_action" [] DB.empty =
      (failWith ("Unknown function: " ++ "no_such_action"), DB.empty) :=
  ⟨(execute_function_failure_leaves_store_unchanged "create_client" [] DB.empty).1
      (by decide),
   (execute_function_failure_leaves_store_unchanged "no_such_action" [] DB.empty).2
      (by decide)⟩

/-- An unconfigured client or a raised model call both fall back to the
fixed simulated response. -/
lemma generateResponse_simulated (configured : Bool) (outcome : Option GenResponse)
    (h : configured = false ∨ outcome = none) :
    generateResponse configured outcome = simulatedResponse := by
  cases h with
  | inl hc => simp [generateResponse, hc]
  | inr ho => cases configured <;> simp [generateResponse, ho]

/-- C4 (code defect): the degraded-mode machinery itself behaves as
described - an unconfigured client or a raised model call yields exactly
the fixed simulated response, which carries no action invocations, and
the user's message is committed before the model call - but the turn
never completes with that reply: `_save_ai_message` always raises the
unmapped audio-kwarg TypeError, so `chat_with_ai` rolls back the open
transaction and answers HTTP 500, with the user message still
persisted and no assistant reply or action-result list returned. -/
theorem chat_turn_aborts_before_simulated_reply (msg : String)
    (configured : Bool) (outcome : Option GenResponse) (db : DB)
    (h : configured = false ∨ outcome = none) :
    generateResponse configured outcome = simulatedResponse ∧
    simulatedResponse.functionCalls = [] ∧
    (chatWithAI ⟨none, msg⟩ configured outcome db).1 =
      Except.error ⟨500, msgKwargTypeError⟩ ∧
    ∃ m ∈ (chatWithAI ⟨none, msg⟩ configured outcome db).2.messages,
      m.content = msg ∧ m.messageType = "user" := by
  have hsim := generateResponse_simulated configured outcome h
  refine ⟨hsim, rfl, ?_, ?_⟩
  · simp only [chatWithAI, hsim]
  · simp only [chatWithAI, hsim, simulatedResponse, execFunctionCalls]
    exact ⟨_, List.mem_append_right _ (List.mem_singleton_self _), rfl, rfl⟩

/-- C4 witness: a turn on the empty store with no API key configured. -/
theorem chat_turn_aborts_before_simulated_reply_witness :
    generateResponse false none = simulatedResponse ∧
    simulatedResponse.functionCalls = [] ∧
    (chatWithAI ⟨none, "hello"⟩ false none DB.empty).1 =
      Except.error ⟨500, msgKwargTypeError⟩ ∧
    ∃ m ∈ (chatWithAI ⟨none, "hello"⟩ false none DB.empty).2.messages,
      m.content = "hello" ∧ m.messageType = "user" :=
  chat_turn_aborts_before_simulated_reply "hello" false none DB.empty (Or.inl rfl)

/-- Folding additions equals the initial value plus the sum of the mapped
list. -/
lemma foldl_add_map_sum {α : Type} (g : α → Int) (l : List α) (init : Int) :
    l.foldl (fun acc x => acc + g x) init = init + (l.map g).sum := by
  induction l generalizing init with
  | nil => simp
  | cons x xs ih => simp [List.foldl_cons, ih]; omega

/-- The per-day summary computes the working-hours span minus the summed
busy minutes over 60, and flags fully-booked exactly on nonpositive free
time. -/
lemma daySummary_spec (db : DB) (pid : String) (ws we day : Int) :
    (daySummaryOf db pid ws we day).availableHours = ((we - ws : Int) : ℚ) -
      ((((db.appointments.filter (fun a =>
          a.providerId == pid && a.status != cancelledStatus &&
          decide (day ≤ a.startTime) &&
          decide (a.startTime < day + minutesPerDay))).map
        (fun a => a.endTime - a.startTime)).sum +
       ((db.blockedTimes.filter (fun b =>
          b.providerId == pid && b.isActive &&
          decide (day ≤ b.startTime) &&
          decide (b.startTime < day + minutesPerDay))).map
        (fun b => b.endTime - b.startTime)).sum : Int) : ℚ) / 60 ∧
    ((daySummaryOf db pid ws we day).fullyBooked = true ↔
      (daySummaryOf db pid ws we day).availableHours ≤ 0) := by
  constructor
  · simp only [daySummaryOf]
    rw [foldl_add_map_sum, foldl_add_map_sum]
    push_cast
    ring
  · simp only [daySummaryOf]
    simp only [Bool.not_eq_true', decide_eq_false_iff_not, not_lt]

/-- Day `i` of the availability week is the summary of the `i`-th day
after the start date. -/
lemma availabilityWeek_get (db : DB) (pid : String) (ws we d0 : Int)
    (i : Nat) (hi : i < 7) :
    (availabilityWeek db pid ws we d0).get? i =
      some (daySummaryOf db pid ws we (d0 + (i : Int) * minutesPerDay)) := by
  unfold availabilityWeek
  rw [List.get?_map, List.get?_range hi]
  rfl

/-- Provider fixture for C8 with working hours 09:00-17:00. -/
def c8Provider : ProviderRow :=
  ⟨"p1", "Dr. P", none, none, none, none, "#1a73e8", "09:00-17:00", true⟩

/-- One non-cancelled appointment 09:00-10:00 on 2025-03-10. -/
def c8Appt : Appt :=
  ⟨"a1", "p1", "c1", dateToInt 2025 3 10 + 540, dateToInt 2025 3 10 + 600,
   none, none, none, "scheduled", none⟩

/-- Store for C8. -/
def c8db : DB :=
  { DB.empty with providers := [c8Provider],
                  clients := [⟨"c1", "Cara", none, none, true⟩],
                  appointments := [c8Appt], nextId := 1 }

/-- check_availability call for C8. -/
def c8args : Args := [("provider_id", "p1"), ("date", "2025-03-10")]

/-- C8: for the provider with hours 09:00-17:00 and exactly one
non-cancelled appointment 09:00-10:00 on 2025-03-10, check_availability
succeeds and the day's summary reports 7.0 hours free and not fully
booked; in general day `i` of the report is the summary of the `i`-th day
and each summary equals the working-hours span minus the summed busy
minutes over 60, flagged fully booked exactly when that free time is
nonpositive. -/
theorem check_availability_free_hours :
    ((aiCheckAvailability c8args c8db).1.success = true ∧
     parseWorkHours "09:00-17:00" = (9, 17) ∧
     (daySummaryOf c8db "p1" 9 17 (dateToInt 2025 3 10)).availableHours = 7 ∧
     (daySummaryOf c8db "p1" 9 17 (dateToInt 2025 3 10)).fullyBooked = false) ∧
    (∀ (db : DB) (pid : String) (ws we d0 : Int) (i : Nat), i < 7 →
       (availabilityWeek db pid ws we d0).get? i =
         some (daySummaryOf db pid ws we (d0 + (i : Int) * minutesPerDay))) ∧
    (∀ (db : DB) (pid : String) (ws we day : Int),
       (daySummaryOf db pid ws we day).availableHours = ((we - ws : Int) : ℚ) -
         ((((db.appointments.filter (fun a =>
             a.providerId == pid && a.status != cancelledStatus &&
             decide (day ≤ a.startTime) &&
             decide (a.startTime < day + minutesPerDay))).map
           (fun a => a.endTime - a.startTime)).sum +
          ((db.blockedTimes.filter (fun b =>
             b.providerId == pid && b.isActive &&
             decide (day ≤ b.startTime) &&
             decide (b.startTime < day + minutesPerDay))).map
           (fun b => b.endTime - b.startTime)).sum : Int) : ℚ) / 60 ∧
       ((daySummaryOf db pid ws we day).fullyBooked = true ↔
         (daySummaryOf db pid ws we day).availableHours ≤ 0)) := by
  refine ⟨⟨by decide, by decide, ?_, ?_⟩,
    fun db pid ws we d0 i hi => availabilityWeek_get db pid ws we d0 i hi,
    fun db pid ws we day => daySummary_spec db pid ws we day⟩
  · show ((8 : Int) : ℚ) - ((60 : Int) : ℚ) / 60 = 7
    norm_num
  · have hs := (daySummary_spec c8db "p1" 9 17 (dateToInt 2025 3 10)).2
    have h7 : (daySummaryOf c8db "p1" 9 17 (dateToInt 2025 3 10)).availableHours = 7 := by
      show ((8 : Int) : ℚ) - ((60 : Int) : ℚ) / 60 = 7
      norm_num
    rw [h7] at hs
    cases hfb : (daySummaryOf c8db "p1" 9 17 (dateToInt 2025 3 10)).fullyBooked with
    | false => rfl
    | true =>
      exfalso
      have := hs.mp hfb
      norm_num at this

/-- C8 witness: the general day-indexing part applied at day 3 of an
arbitrary concrete store. -/
theorem check_availability_free_hours_witness :
    (availabilityWeek c8db "p1" 9 17 (dateToInt 2025 3 10)).get? 3 =
      some (daySummaryOf c8db "p1" 9 17
        (dateToInt 2025 3 10 + ((3 : Nat) : Int) * minutesPerDay)) :=
  check_availability_free_hours.2.1 c8db "p1" 9 17 (dateToInt 2025 3 10) 3
    (by decide)

end AiCrm
